import Mathlib

/-!
Verification of the channel-wired thread-pool scheduler in
`lib/git/async/pool.py` (classes `TaskNode`, `RPoolChannel`, `ThreadPool`).

The Python code is shallowly embedded: every mutation of a task or pool is
modelled as a pure function from the old state to the new one, and side
effects that the scheduler performs (putting jobs on the worker queue,
invoking `process` inline in serial mode, appending tasks to the
consumed-tasks list) are recorded explicitly in the returned value.
Machine integers in the source are plain non-negative Python ints used as
item counts, embedded as `Nat`; `count / max_chunksize` is Python-2 floor
division of non-negative ints, which is exactly `Nat` division.

The channel primitive (`channel.py`), the graph container (`graph.py`) and
the worker thread (`thread.py`) are collaborators that are not part of the
sources; where their behaviour matters it is modelled from the spec, and
each such definition carries a doc comment saying so.
-/

/-- A Python exception value, as far as the pool code needs to distinguish
them: `IOError` with a message, a `TypeError` (raised by calling a callable
with the wrong number of arguments), and opaque user exceptions tagged by a
number. -/
inductive PyExc where
  | ioError (msg : String)
  | typeError
  | userExc (tag : Nat)
deriving DecidableEq

/-- A dynamically-typed Python value flowing through the channels.  `fun`
receives either a single item (`apply_single = True`) or the whole batch as
one list object (`apply_single = False`), so the item domain must be able
to hold lists of itself. -/
inductive Value where
  | nat (n : Nat)
  | vlist (vs : List Value)

/-- The write end of a channel: its buffered items and its closed flag.
Modelled from the spec: "a thread-safe FIFO with read(count, block,
timeout), write, close, size, and a paired write-end with a closed flag"
(the implementation `channel.py` is not among the sources). -/
structure WChan where
  items : List Value
  closed : Bool

/-- Modelled from the spec: the raw channel read returns the buffered items
up to `count`, in FIFO order; a demand of `count = 0` means "process
whatever you can" (spec section 4.3 treats a demand below 1 as "drain
until done"), so it takes everything buffered.  This is the part of
`channel.py` that `TaskNode.process` and `RPoolChannel.read` call into. -/
def chanTake (buffered : List Value) (count : Nat) : List Value :=
  if count = 0 then buffered else buffered.take count

/-- Modelled from the spec: the items left buffered after `chanTake`. -/
def chanDrop (buffered : List Value) (count : Nat) : List Value :=
  if count = 0 then [] else buffered.drop count

/-- Modelled from the spec: writing appends to the buffer; the write end is
closeable and once closed the stream accepts no further items (spec: after
`done` "no further items appear"), so a write on a closed channel fails
with an IOError. -/
def wcWrite (wc : WChan) (v : Value) : Except PyExc WChan :=
  if wc.closed then Except.error (PyExc.ioError "cannot write to a closed channel")
  else Except.ok { wc with items := wc.items ++ [v] }

/-- Embedding of `TaskNode` (`pool.py` lines 19-43).  `in_rc` is kept
outside the structure: the input channel's buffered items are passed to
`process` explicitly, since they belong to the upstream channel's state.
The processing function `fun` is a keyword in Lean and is named `fn`. -/
structure TaskNode where
  /-- `_out_wc`: the output write channel, `none` until `add_task` binds it. -/
  out_wc : Option WChan
  /-- `_exc`: exception caught during the last processing, if any. -/
  exc : Option PyExc
  /-- `fun`: function applied to items (or to the whole batch). -/
  fn : Value → Except PyExc Value
  /-- `min_count`: optional demand override used by the scheduler. -/
  min_count : Option Nat
  /-- `max_chunksize`: 0 means unchunked. -/
  max_chunksize : Nat
  /-- `apply_single`: apply `fun` per item rather than per batch. -/
  apply_single : Bool

/-- `TaskNode.is_done` (line 44-46): `return self._out_wc.closed`.  The
source would fault on an unbound output; it is only ever called on tasks
that went through `add_task`, and the embedding returns `false` for the
unbound case. -/
def TaskNode.is_done (t : TaskNode) : Bool :=
  match t.out_wc with
  | some wc => wc.closed
  | none => false

/-- `TaskNode.set_done` (line 48-50): close the output write channel. -/
def TaskNode.set_done (t : TaskNode) : TaskNode :=
  { t with out_wc := t.out_wc.map fun wc => { wc with closed := true } }

/-- `TaskNode.error` (line 52-54) viewed as a Boolean test, combined with
`is_done` exactly as the visitor's guard `task.error() or task.is_done()`
(line 176) evaluates it. -/
def TaskNode.errOrDone (t : TaskNode) : Bool :=
  t.exc.isSome || t.is_done

/-- `task._out_wc.size()` as read by the visitor (line 189): the number of
items buffered on the task's output. -/
def TaskNode.out_size (t : TaskNode) : Nat :=
  match t.out_wc with
  | some wc => wc.items.length
  | none => 0

/-- The `min_count` override of `_queue_feeder_visitor` (lines 181-183):
`if task.min_count is not None: count = task.min_count`. -/
def effective_count (min_count : Option Nat) (count : Nat) : Nat :=
  match min_count with
  | some m => m
  | none => count

/-- What one visit of `ThreadPool._queue_feeder_visitor` does to the world
outside the task: whether the task was appended to `_consumed_tasks`,
which `(task.process, n)` jobs were put on the worker queue (in order),
and which `task.process(n)` calls were made inline (serial mode). -/
structure VisitResult where
  consumed : Bool
  jobs : List Nat
  inline : List Nat

/-- Embedding of `ThreadPool._queue_feeder_visitor` (lines 173-210).
`hasWorkers` is the truth value of `if self._workers:`.  The source has no
early return: after the done/error branch appends to the consumed list,
control falls through to the scheduling code. -/
def queue_feeder_visitor (t : TaskNode) (hasWorkers : Bool) (count : Nat) :
    VisitResult :=
  let consumed := t.errOrDone
  let count := effective_count t.min_count count
  if hasWorkers then
    if count < 1 ∨ t.out_size < count then
      if t.max_chunksize ≠ 0 then
        let chunksize := count / t.max_chunksize
        let remainder := count - chunksize * t.max_chunksize
        { consumed := consumed
          jobs := List.replicate chunksize chunksize ++
                    (if remainder ≠ 0 then [remainder] else [])
          inline := [] }
      else
        { consumed := consumed, jobs := [count], inline := [] }
    else
      { consumed := consumed, jobs := [], inline := [] }
  else
    { consumed := consumed, jobs := [], inline := [count] }

/-- The `try` body of `TaskNode.process` (lines 66-73) for the
`apply_single` case: apply `fn` to each item in turn, writing each result
to the output channel, stopping at the first exception (from `fn` or from
the write).  Returns the channel as mutated so far and the caught
exception, if any. -/
def writeLoop (f : Value → Except PyExc Value) (wc : WChan) :
    List Value → WChan × Option PyExc
  | [] => (wc, none)
  | i :: is =>
    match f i with
    | Except.error e => (wc, some e)
    | Except.ok v =>
      match wcWrite wc v with
      | Except.error e => (wc, some e)
      | Except.ok wc1 => writeLoop f wc1 is

/-- The `try` body for the `apply_single = False` case (line 72): one call
on the whole batch, one write. -/
def writeBatch (f : Value → Except PyExc Value) (wc : WChan)
    (items : List Value) : WChan × Option PyExc :=
  match f (Value.vlist items) with
  | Except.error e => (wc, some e)
  | Except.ok v =>
    match wcWrite wc v with
    | Except.error e => (wc, some e)
    | Except.ok wc1 => (wc1, none)

/-- Embedding of `TaskNode.process` (lines 56-83).  `inp` is the buffered
content of the task's input channel; the result is the new task state
together with what remains buffered on the input.  The only exception the
function raises to its caller is the uninitialized-task IOError of line
58-59; exceptions from `fun` (and from the output write) are caught by the
`try/except` and stored in `_exc`, after which `set_done` runs.  Finally,
`if len(items) != count: self.set_done()` (lines 81-82). -/
def TaskNode.process (t : TaskNode) (inp : List Value) (count : Nat) :
    Except PyExc (TaskNode × List Value) :=
  match t.out_wc with
  | none => Except.error (PyExc.ioError "Cannot work in uninitialized task")
  | some wc =>
    let items := chanTake inp count
    let rest := chanDrop inp count
    let step :=
      if t.apply_single then writeLoop t.fn wc items
      else writeBatch t.fn wc items
    let t1 :=
      match step.2 with
      | some e =>
        TaskNode.set_done { t with exc := some e, out_wc := some step.1 }
      | none => { t with out_wc := some step.1 }
    let t2 := if items.length ≠ count then t1.set_done else t1
    Except.ok (t2, rest)

/-- A live (not done, no error) task with a given chunk size and otherwise
default knobs, used to evaluate the scheduler on concrete demands. -/
def chunkTask (k : Nat) : TaskNode :=
  { out_wc := some { items := [], closed := false }
    exc := none
    fn := fun v => Except.ok v
    min_count := none
    max_chunksize := k
    apply_single := true }

/-- A live task with a `min_count` override installed. -/
def minCountTask (m : Nat) : TaskNode :=
  { chunkTask 0 with min_count := some m }

/-- A task that is already done: its output write channel is closed. -/
def doneTask : TaskNode :=
  { chunkTask 0 with out_wc := some { items := [], closed := true } }

/-- A `TaskNode` whose output was never bound by `add_task`. -/
def uninitTask : TaskNode :=
  { chunkTask 0 with out_wc := none }

/-- `allOk f l = some vs` states that `f` succeeds on every element of `l`
with results `vs`; the successful prefix of a `writeLoop` run. -/
def allOk (f : Value → Except PyExc Value) : List Value → Option (List Value)
  | [] => some []
  | i :: is =>
    match f i with
    | Except.ok v => (allOk f is).map (fun ws => v :: ws)
    | Except.error _ => none

lemma wcWrite_open (os : List Value) (v : Value) :
    wcWrite { items := os, closed := false } v =
      Except.ok { items := os ++ [v], closed := false } := rfl

/-- Running the apply-single loop on an open channel over a batch whose
prefix `pre` succeeds (producing `vs`) and whose next item `x` makes `fn`
raise `e`: the successful results are all written, the loop stops with the
exception, and the channel stays open (closing is the except-handler's
job). -/
lemma writeLoop_error (f : Value → Except PyExc Value) :
    ∀ (pre : List Value) (os vs : List Value) (x : Value)
      (post : List Value) (e : PyExc),
      allOk f pre = some vs → f x = Except.error e →
      writeLoop f { items := os, closed := false } (pre ++ x :: post) =
        ({ items := os ++ vs, closed := false }, some e) := by
  intro pre
  induction pre with
  | nil =>
    intro os vs x post e hok hx
    simp only [allOk, Option.some.injEq] at hok
    subst hok
    simp [writeLoop, hx]
  | cons p ps ih =>
    intro os vs x post e hok hx
    simp only [allOk] at hok
    cases hfp : f p with
    | error e2 => rw [hfp] at hok; simp at hok
    | ok v =>
      rw [hfp] at hok
      cases hps : allOk f ps with
      | none => rw [hps] at hok; simp at hok
      | some ws =>
        rw [hps] at hok
        simp only [Option.map_some', Option.some.injEq] at hok
        subst hok
        simp only [List.cons_append, writeLoop, hfp, wcWrite_open,
          List.append_eq]
        rw [ih (os ++ [v]) ws x post e hps hx]
        simp

/-- C6: if `fun` raises partway through an `apply_single` batch, `process`
still returns normally (the exception never propagates to its caller),
the exception is stored in the task's `_exc` slot, the task is marked done
(output closed), and the items written before the failure remain buffered
on the output. -/
theorem process_captures_fun_error (t : TaskNode)
    (os inp pre post vs : List Value) (x : Value) (e : PyExc) (count : Nat)
    (ha : t.apply_single = true)
    (hw : t.out_wc = some { items := os, closed := false })
    (hi : chanTake inp count = pre ++ x :: post)
    (hok : allOk t.fn pre = some vs)
    (hx : t.fn x = Except.error e) :
    t.process inp count =
      Except.ok
        ({ t with exc := some e,
                  out_wc := some { items := os ++ vs, closed := true } },
         chanDrop inp count) := by
  unfold TaskNode.process
  rw [hw]
  simp only [hi, ha, if_true]
  rw [writeLoop_error t.fn pre os vs x post e hok hx]
  simp only [TaskNode.set_done, Option.map_some]
  split <;> rfl

/-- The function used in the concrete C6 scenario: it fails on the value
`nat 0` with user exception 7 and succeeds (identically) elsewhere. -/
def failOnZero : Value → Except PyExc Value
  | Value.nat 0 => Except.error (PyExc.userExc 7)
  | v => Except.ok v

/-- The concrete C6 task: one item already on its (open) output. -/
def failingTask : TaskNode :=
  { out_wc := some { items := [Value.nat 9], closed := false }
    exc := none
    fn := failOnZero
    min_count := none
    max_chunksize := 0
    apply_single := true }

/-- C6 witness: processing `[1, 0, 5]` with demand 3 writes the transformed
`1`, stores the exception raised on `0`, and closes the output. -/
theorem process_captures_fun_error_witness :
    TaskNode.process failingTask [Value.nat 1, Value.nat 0, Value.nat 5] 3 =
      Except.ok
        ({ failingTask with
             exc := some (PyExc.userExc 7),
             out_wc := some { items := [Value.nat 9] ++ [Value.nat 1],
                              closed := true } },
         chanDrop [Value.nat 1, Value.nat 0, Value.nat 5] 3) :=
  process_captures_fun_error failingTask [Value.nat 9]
    [Value.nat 1, Value.nat 0, Value.nat 5] [Value.nat 1] [Value.nat 5]
    [Value.nat 1] (Value.nat 0) (PyExc.userExc 7) 3 rfl rfl rfl rfl rfl

/-- C9: calling `process` on a task whose output write end was never bound
by `add_task` raises the "Cannot work in uninitialized task" IOError; no
new task state and no remaining-input state are produced, so nothing was
read, applied, or written. -/
theorem process_uninitialized_raises (t : TaskNode) (inp : List Value)
    (count : Nat) (h : t.out_wc = none) :
    t.process inp count =
      Except.error (PyExc.ioError "Cannot work in uninitialized task") := by
  unfold TaskNode.process
  rw [h]

/-- C9 witness: the guard fires on a concrete unbound task. -/
theorem process_uninitialized_raises_witness :
    TaskNode.process uninitTask [Value.nat 1] 1 =
      Except.error (PyExc.ioError "Cannot work in uninitialized task") :=
  process_uninitialized_raises uninitTask [Value.nat 1] 1 rfl

/-- C4: the claim (and the source's own comment on lines 79-80) says
`process(0)` always marks the task done.  On an initialized task whose
input channel is empty, `process(0)` reads zero items, `len(items) !=
count` is `0 != 0 = False`, and the task is left not done: its output
channel stays open and unchanged. -/
theorem process_zero_count_empty_input :
    TaskNode.process (chunkTask 0) [] 0 = Except.ok (chunkTask 0, []) ∧
    (chunkTask 0).is_done = false :=
  ⟨rfl, rfl⟩

/-- C1: the claim says a demand of `count` with `max_chunksize = k > 0` is
split into `floor(count/k)` jobs of size `k` (plus a `count mod k` tail)
whose sizes sum to `count`.  The code instead enqueues `floor(count/k)`
jobs each of size `floor(count/k)`: at `count = 10`, `k = 2` it enqueues
five jobs of size 5, the sizes sum to 25 rather than 10, and the job list
differs from the five jobs of size 2 the claim requires. -/
theorem chunking_inverted :
    (queue_feeder_visitor (chunkTask 2) true 10).jobs = [5, 5, 5, 5, 5] ∧
    ([5, 5, 5, 5, 5] : List Nat).sum ≠ 10 ∧
    ([5, 5, 5, 5, 5] : List Nat) ≠ List.replicate (10 / 2) 2 := by
  refine ⟨rfl, by decide, by decide⟩

/-- C3 counterexample: the claim says the effective demand for a task with
`min_count = m` under requested count `c` is `max c m`.  With `m = 2` and
`c = 5` the scheduler enqueues a single job of size 2, not `max 5 2 = 5`:
the override also lowers the demand. -/
theorem min_count_not_max_cex :
    (queue_feeder_visitor (minCountTask 2) true 5).jobs = [2] ∧
    (2 : Nat) ≠ Nat.max 5 2 := by
  refine ⟨rfl, by decide⟩

/-- C3 (amended): whenever `min_count = some m` is set, the effective
demand used for the task is exactly `m`, whatever the requested count: in
serial mode the inline `process` call demands `m`, and with workers and an
unchunked, unsatisfied task the single enqueued job demands `m`. -/
theorem min_count_overrides_demand (t : TaskNode) (c m : Nat)
    (h : t.min_count = some m) :
    (queue_feeder_visitor t false c).inline = [m] ∧
    (t.max_chunksize = 0 → t.out_size < m →
      (queue_feeder_visitor t true c).jobs = [m]) := by
  constructor
  · simp [queue_feeder_visitor, effective_count, h]
  · intro hk hs
    simp [queue_feeder_visitor, effective_count, h, hk, hs]

/-- C3 witness: the amended theorem applied at `m = 2`, `c = 5` on a
concrete task. -/
theorem min_count_overrides_demand_witness :
    (queue_feeder_visitor (minCountTask 2) false 5).inline = [2] ∧
    ((minCountTask 2).max_chunksize = 0 → (minCountTask 2).out_size < 2 →
      (queue_feeder_visitor (minCountTask 2) true 5).jobs = [2]) :=
  min_count_overrides_demand (minCountTask 2) 5 2 rfl

/-- A Python callback as stored in `_pre_cb`: a callable with an arity.
`set_pre_cb`s documented shape (and its default, `lambda count: None`)
takes the item count, i.e. is unary; a user may also install a nullary
callable. -/
inductive Cb where
  | nullary (f : Unit → Except PyExc Unit)
  | unary (f : Nat → Except PyExc Unit)

/-- Python call semantics for the expression `self._pre_cb()` on line 124:
a zero-argument call.  Invoking a unary callable with zero arguments
raises a `TypeError`. -/
def call0 : Cb → Except PyExc Unit
  | Cb.nullary f => f ()
  | Cb.unary _ => Except.error PyExc.typeError

/-- The observable outcome of one `RPoolChannel.read` call:
* `exc`: the exception propagated to the caller, if any;
* `scheduled`: whether `self._pool._prepare_processing` ran (line 128);
* `itemsRead`: the items taken off the underlying channel by the raw
  `RChannel.read` (line 131), `none` if that read never happened;
* `localItems`: the value of the local variable `items` when the function
  body ends, i.e. after the optional `post_cb` (lines 132-133);
* `ret`: the Python return value of the call. -/
structure ReadOutcome where
  exc : Option PyExc
  scheduled : Bool
  itemsRead : Option (List Value)
  localItems : Option (List Value)
  ret : Option (List Value)

/-- Embedding of `RPoolChannel.read` (lines 119-133).  `chan` is the
buffered content of the underlying channel once upstream production has
run.  The body has no `return` statement, so on the non-raising path the
Python call evaluates to `None`: `ret := none` even though `localItems`
holds the post-processed list. -/
def rpoolRead (preCb : Option Cb)
    (postCb : Option (List Value → Except PyExc (List Value)))
    (chan : List Value) (count : Nat) : ReadOutcome :=
  let afterPre : Except PyExc Unit :=
    match preCb with
    | some cb => call0 cb
    | none => Except.ok ()
  match afterPre with
  | Except.error e =>
    { exc := some e, scheduled := false, itemsRead := none,
      localItems := none, ret := none }
  | Except.ok _ =>
    let items := chanTake chan count
    match postCb with
    | some f =>
      match f items with
      | Except.error e =>
        { exc := some e, scheduled := true, itemsRead := some items,
          localItems := none, ret := none }
      | Except.ok items2 =>
        { exc := none, scheduled := true, itemsRead := some items,
          localItems := some items2, ret := none }
    | none =>
      { exc := none, scheduled := true, itemsRead := some items,
        localItems := some items, ret := none }

/-- C2: the claim says `read` returns the list of items read.  On a
callback-free read of one buffered item the code does read that item (it
is the final value of the local `items`), but the function body ends
without a `return` statement, so the call returns `None` - not the item
list. -/
theorem read_returns_none :
    (rpoolRead none none [Value.nat 3] 1).localItems = some [Value.nat 3] ∧
    (rpoolRead none none [Value.nat 3] 1).ret = none :=
  ⟨rfl, rfl⟩

/-- The callback shape documented by `set_pre_cb` (its default is
`lambda count: None`): a unary callable that accepts the count and
succeeds. -/
def docPreCb : Cb :=
  Cb.unary fun _ => Except.ok ()

/-- C8: the claim says `read` invokes `pre_cb` with the requested count and
surfaces its failure as an I/O failure.  The code invokes `self._pre_cb()`
with zero arguments, so the documented count-taking callback raises a
`TypeError`, which propagates unwrapped (not as an `IOError`); the parts
of the claim that do hold are visible too: no scheduling was performed and
no items were read. -/
theorem pre_cb_called_without_count :
    rpoolRead (some docPreCb) none [Value.nat 3] 1 =
      { exc := some PyExc.typeError, scheduled := false, itemsRead := none,
        localItems := none, ret := none } :=
  rfl

/-- Embedding of the `ThreadPool` state created by `__init__` (lines
162-167): the task graph node list, the consumed-tasks scratch list, the
worker count (the length of `_workers`; the thread objects themselves are
opaque), and the master queue of `(task id, count)` jobs. -/
structure ThreadPoolState where
  tasks : List Nat
  consumed_tasks : List Nat
  workers : Nat
  queue : List (Nat × Nat)
  ordered_tasks_cache : List (Nat × List Nat)

/-- `ThreadPool.__init__(self, size=0)` (lines 162-167): every field is
initialized empty; the `size` argument is never mentioned in the body. -/
def ThreadPool.init (size : Nat) : ThreadPoolState :=
  { tasks := []
    consumed_tasks := []
    workers := 0
    queue := []
    ordered_tasks_cache := [] }

/-- The worker-count arithmetic of `set_pool_size` (lines 274-286): append
`size - cur` workers when growing, stop-and-join and delete `cur - size`
when shrinking. -/
def set_pool_size_workers (cur size : Nat) : Nat :=
  if cur < size then cur + (size - cur)
  else if size < cur then cur - (cur - size)
  else cur

/-- C10: the `size` argument of the constructor is ignored - the pool
built by `ThreadPool(size=n)` equals the one built with any other size,
and it starts with zero workers and an empty work queue; worker threads
come into existence only through `set_pool_size`, which always leaves
exactly the requested number of workers. -/
theorem pool_init_ignores_size (n m : Nat) :
    ThreadPool.init n = ThreadPool.init m ∧
    (ThreadPool.init n).workers = 0 ∧
    (ThreadPool.init n).queue = [] ∧
    ∀ cur k, set_pool_size_workers cur k = k := by
  refine ⟨rfl, rfl, rfl, ?_⟩
  intro cur k
  unfold set_pool_size_workers
  split
  · omega
  · split <;> omega

/-!
Garbage-collection model for the orphan cascade (C7).

`RPoolChannel.__del__` (lines 101-104) first drops its strong reference to
the task's output write channel (`del(self._wc)`) and then calls
`ThreadPool._del_task_if_orphaned(self._task)`, which deletes the task
when `sys.getrefcount(task._out_wc) < 3` (lines 232-235).  The references
to `task._out_wc` are: the `_out_wc` attribute itself, one per live
`RPoolChannel` wrapping it (each `RChannel` holds `_wc`), plus the
temporary bound by `getrefcount`'s argument.  So the test is exactly
"no `RPoolChannel` of this task is alive any more".

An `RPoolChannel` of task `i` is held either externally (by user code) or
as the `in_rc` of a downstream task object; a downstream task object is
itself alive while it is in the graph, while an `RPoolChannel` of *its*
output is held externally, or while one of *its* children is alive (every
`RPoolChannel` holds `_task`).  `del_task` (lines 240-260) snapshots the
input neighbours, removes the node, and orphan-checks each neighbour; in
CPython the neighbour check succeeds either right there or, once the
deleted task object's own destruction runs `__del__` on its `in_rc`, via
the chained finalizer - the model folds the chained finalizer into the
recursive call, which yields the same net deletions.

`add_task` gives each task one input channel, created by the `add_task`
of its producer, so parents always precede children and the object graph
is a forest: `parent j = some i → i + 1 = j` holds for the chain states
the theorem is about.  Aliveness recursion is fuelled; a fuel of
`ids.length` covers every descendant path.
-/

/-- The reference-relevant state of a pool: the task ids ever created, the
producer (`in_rc` source) of each task, the number of externally held
`RPoolChannel`s per task output, and graph membership. -/
structure GCState where
  ids : List Nat
  parent : Nat → Option Nat
  ext : Nat → Nat
  inGraph : Nat → Bool

/-- Whether the task *object* `i` is still referenced, with explicit fuel:
it is alive while it is in the graph, while an external handle on its
output exists, or while some child task object (which holds an
`RPoolChannel` on `i`, which holds `i`) is alive. -/
def aliveAux (s : GCState) : Nat → Nat → Bool
  | 0, _ => false
  | fuel + 1, i =>
    s.inGraph i || decide (0 < s.ext i) ||
      s.ids.any fun j => decide (s.parent j = some i) && aliveAux s fuel j

/-- Task-object aliveness with sufficient fuel. -/
def aliveObj (s : GCState) (i : Nat) : Bool :=
  aliveAux s s.ids.length i

/-- The number of `RPoolChannel` objects currently wrapping `i`'s output
write channel: external handles plus one `in_rc` per alive child object.
`sys.getrefcount(task._out_wc) < 3` on line 234 is `chanHandles = 0`. -/
def chanHandles (s : GCState) (i : Nat) : Nat :=
  s.ext i +
    (s.ids.filter fun j => decide (s.parent j = some i) && aliveObj s j).length

/-- `self._tasks.del_node(task)` as far as membership is concerned. -/
def setInGraphFalse (s : GCState) (i : Nat) : GCState :=
  { s with inGraph := fun j => if j = i then false else s.inGraph j }

/-- `del(self._wc)` in `RPoolChannel.__del__`: one handle on `i`'s output
goes away. -/
def decExt (s : GCState) (i : Nat) : GCState :=
  { s with ext := fun j => if j = i then s.ext j - 1 else s.ext j }

/-- `ThreadPool.del_task` (lines 240-260) with fuel: remove the node, then
orphan-check the input neighbour (the producer of `task.in_rc`); the
recursive call also stands for the chained `__del__` of the dead task's
`in_rc`, which performs the deleted-object half of the same check. -/
def delTaskAux : GCState → Nat → Nat → GCState
  | s, 0, i => setInGraphFalse s i
  | s, fuel + 1, i =>
    let s1 := setInGraphFalse s i
    match s.parent i with
    | none => s1
    | some p => if chanHandles s1 p = 0 then delTaskAux s1 fuel p else s1

/-- `ThreadPool.del_task`, fuelled by the number of tasks (an upper bound
on the length of any producer chain). -/
def del_task (s : GCState) (i : Nat) : GCState :=
  delTaskAux s s.ids.length i

/-- `ThreadPool._del_task_if_orphaned` (lines 232-235). -/
def del_task_if_orphaned (s : GCState) (i : Nat) : GCState :=
  if chanHandles s i = 0 then del_task s i else s

/-- `RPoolChannel.__del__` (lines 101-104) for an externally held channel
of task `i`: drop the `_wc` reference, then orphan-check the task. -/
def rpoolChannelDel (s : GCState) (i : Nat) : GCState :=
  del_task_if_orphaned (decExt s i) i

/-- The producer chain `0 → 1 → ... → n`. -/
def chainParent (n : Nat) (j : Nat) : Option Nat :=
  if j = 0 then none else if j ≤ n then some (j - 1) else none

/-- The pool after registering the chain `0 → 1 → ... → n` and handing a
single external `RPoolChannel` of the sink task `n` to the consumer: every
intermediate task's output is consumed only by its successor. -/
def chainState (n : Nat) : GCState :=
  { ids := List.range (n + 1)
    parent := chainParent n
    ext := fun j => if j = n then 1 else 0
    inGraph := fun j => decide (j ≤ n) }

lemma chainParent_eq_some {n j i : Nat} (h : chainParent n j = some i) :
    i + 1 = j ∧ j ≤ n := by
  unfold chainParent at h
  by_cases h0 : j = 0
  · rw [if_pos h0] at h; exact absurd h (by simp)
  · rw [if_neg h0] at h
    by_cases hn : j ≤ n
    · rw [if_pos hn] at h
      have : j - 1 = i := by injection h
      omega
    · rw [if_neg hn] at h; exact absurd h (by simp)

/-- In a state whose producer relation is a chain, whose outputs have no
external handles, and whose tasks from `m` upward are all out of the
graph, every task object from `m` upward is dead (whatever the fuel). -/
lemma aliveAux_false (s : GCState) (m : Nat)
    (hpar : ∀ j i, s.parent j = some i → i + 1 = j)
    (hext : ∀ j, s.ext j = 0)
    (hgr : ∀ j, m ≤ j → s.inGraph j = false) :
    ∀ fuel j, m ≤ j → aliveAux s fuel j = false := by
  intro fuel
  induction fuel with
  | zero => intro j _; rfl
  | succ fuel ih =>
    intro j hj
    have hany :
        (s.ids.any fun j2 =>
          decide (s.parent j2 = some j) && aliveAux s fuel j2) = false := by
      rw [List.any_eq_false]
      intro j2 _
      by_cases hp : s.parent j2 = some j
      · have hstep := hpar j2 j hp
        have : aliveAux s fuel j2 = false := ih j2 (by omega)
        simp [hp, this]
      · simp [hp]
    simp [aliveAux, hgr j hj, hext j, hany]

/-- The cascade of `del_task` along a fully internal producer chain: if
tasks above `k` are already gone and no output anywhere has an external
handle left, deleting task `k` sweeps the whole chain out of the graph. -/
lemma delTaskAux_chain (n : Nat) :
    ∀ k (s : GCState), k ≤ n →
      s.ids = List.range (n + 1) →
      (∀ j, s.parent j = chainParent n j) →
      (∀ j, s.ext j = 0) →
      (∀ j, s.inGraph j = decide (j ≤ k)) →
      ∀ j, (delTaskAux s (k + 1) k).inGraph j = false := by
  intro k
  induction k with
  | zero =>
    intro s _ _ hpar _ hgr j
    simp only [delTaskAux, hpar 0, chainParent, if_pos rfl]
    unfold setInGraphFalse
    by_cases hj : j = 0
    · simp [hj]
    · have : s.inGraph j = false := by
        rw [hgr j]; simp; omega
      simp [hj, this]
  | succ k ih =>
    intro s hk hids hpar hext hgr j
    have hparSucc : s.parent (k + 1) = some k := by
      rw [hpar (k + 1)]
      unfold chainParent
      rw [if_neg (by omega), if_pos hk]
      simp only [Nat.add_sub_cancel]
    set s1 := setInGraphFalse s (k + 1) with hs1
    have hs1ids : s1.ids = List.range (n + 1) := hids
    have hs1par : ∀ j2, s1.parent j2 = chainParent n j2 := hpar
    have hs1ext : ∀ j2, s1.ext j2 = 0 := hext
    have hs1gr : ∀ j2, s1.inGraph j2 = decide (j2 ≤ k) := by
      intro j2
      show (if j2 = k + 1 then false else s.inGraph j2) = decide (j2 ≤ k)
      by_cases hj2 : j2 = k + 1
      · rw [if_pos hj2]; subst hj2; simp
      · rw [if_neg hj2, hgr j2]
        by_cases hle : j2 ≤ k
        · have : j2 ≤ k + 1 := by omega
          simp [hle, this]
        · have : ¬ j2 ≤ k + 1 := by omega
          simp [hle, this]
    have hdead : ∀ j2, k + 1 ≤ j2 → aliveObj s1 j2 = false := by
      intro j2 hj2
      exact aliveAux_false s1 (k + 1)
        (fun a b hab => (chainParent_eq_some
          (by rw [← hs1par a]; exact hab)).1)
        hs1ext
        (fun a ha => by rw [hs1gr a]; simp; omega)
        s1.ids.length j2 hj2
    have hch : chanHandles s1 k = 0 := by
      unfold chanHandles
      rw [hs1ext k]
      have hfil :
          (s1.ids.filter fun j2 =>
            decide (s1.parent j2 = some k) && aliveObj s1 j2) = [] := by
        rw [List.filter_eq_nil_iff]
        intro j2 _
        by_cases hp : s1.parent j2 = some k
        · have hj2 : j2 = k + 1 := by
            have := chainParent_eq_some (by rw [← hs1par j2]; exact hp)
            omega
          have : aliveObj s1 j2 = false := hdead j2 (by omega)
          simp [hp, this]
        · simp [hp]
      rw [hfil]
      rfl
    show (delTaskAux s (k + 1 + 1) (k + 1)).inGraph j = false
    simp only [delTaskAux, hparSucc, ← hs1, hch, if_pos]
    exact ih s1 (by omega) hs1ids hs1par hs1ext hs1gr j

/-- C7: dropping the sole externally held `PoolReadChannel` - the one on
the sink task `n` of the registered chain `0 → 1 → ... → n`, in which
every other task's only consumer is its successor - triggers
`RPoolChannel.__del__` and deletes every task of the chain from the
graph: the sink and, transitively, each of its ancestors. -/
theorem orphan_cascade_chain (n j : Nat) :
    (rpoolChannelDel (chainState n) n).inGraph j = false := by
  set s0 := decExt (chainState n) n with hs0
  have hids : s0.ids = List.range (n + 1) := rfl
  have hpar : ∀ j2, s0.parent j2 = chainParent n j2 := fun _ => rfl
  have hext : ∀ j2, s0.ext j2 = 0 := by
    intro j2
    show (if j2 = n then (chainState n).ext j2 - 1
          else (chainState n).ext j2) = 0
    by_cases hj2 : j2 = n
    · subst hj2; simp [chainState]
    · simp [hj2, chainState]
  have hgr : ∀ j2, s0.inGraph j2 = decide (j2 ≤ n) := fun _ => rfl
  have hdead : ∀ j2, n + 1 ≤ j2 → aliveObj s0 j2 = false := by
    intro j2 hj2
    exact aliveAux_false s0 (n + 1)
      (fun a b hab => (chainParent_eq_some
        (by rw [← hpar a]; exact hab)).1)
      hext
      (fun a ha => by rw [hgr a]; simp; omega)
      s0.ids.length j2 hj2
  have hch : chanHandles s0 n = 0 := by
    unfold chanHandles
    rw [hext n]
    have hfil :
        (s0.ids.filter fun j2 =>
          decide (s0.parent j2 = some n) && aliveObj s0 j2) = [] := by
      rw [List.filter_eq_nil_iff]
      intro j2 hj2
      by_cases hp : s0.parent j2 = some n
      · have hcp := chainParent_eq_some (by rw [← hpar j2]; exact hp)
        have hmem : j2 < n + 1 := by
          rw [hids] at hj2; exact List.mem_range.mp hj2
        omega
      · simp [hp]
    rw [hfil]
    rfl
  have hlen : s0.ids.length = n + 1 := by
    rw [hids]; exact List.length_range (n + 1)
  unfold rpoolChannelDel del_task_if_orphaned del_task
  rw [← hs0, if_pos hch, hlen]
  exact delTaskAux_chain n n s0 le_rfl hids hpar hext hgr j

/-- C5: the claim says a visited task that is done (or errored) is only
appended to the consumed list and is never enqueued nor has `process`
invoked on it during the walk.  The visitor does append it, but control
falls through: in serial mode it still invokes `task.process(1)` inline,
and in parallel mode (output buffer empty, so `size() < count`) it still
enqueues a job of size 1 for it. -/
theorem done_task_still_scheduled :
    (queue_feeder_visitor doneTask false 1).consumed = true ∧
    (queue_feeder_visitor doneTask false 1).inline = [1] ∧
    (queue_feeder_visitor doneTask true 1).jobs = [1] := by
  refine ⟨rfl, rfl, rfl⟩
